import Mathlib

/-!
Verification of the quota-aware YouTube API extraction pipeline.

Shallow embedding of the core components of the repository
(src/youtube_client.py, src/video_extractor.py, src/channel_extractor.py,
src/main.py, src/api.py).  Remote HTTP behaviour is a parameter of each
embedded function (a `RemoteOutcome` value per call); wall-clock sleeping is
recorded as a boolean flag rather than performed.  All other control flow is
translated directly from the Python source.
-/

/-! ## Quota ledger (`QuotaManager` in src/youtube_client.py) -/

/-- State of `QuotaManager`: `daily_limit`, `used_quota`, `request_count`.
All three are non-negative integers in every reachable Python state. -/
structure QuotaManager where
  daily_limit : Nat
  used_quota : Nat
  request_count : Nat
deriving DecidableEq, Repr

/-- `QuotaManager.COSTS.get(operation, 1)`: the cost table
`{search: 100, videos: 1, channels: 1}` with default 1 for unknown keys. -/
def QuotaManager.cost (operation : String) : Nat :=
  if operation = "search" then 100
  else if operation = "videos" then 1
  else if operation = "channels" then 1
  else 1

/-- `QuotaManager.__init__(daily_limit)`: fresh ledger. -/
def QuotaManager.mk0 (daily_limit : Nat) : QuotaManager :=
  { daily_limit := daily_limit, used_quota := 0, request_count := 0 }

/-- `can_make_request`: `(self.used_quota + cost) <= self.daily_limit`. -/
def QuotaManager.can_make_request (qm : QuotaManager) (operation : String) : Bool :=
  qm.used_quota + QuotaManager.cost operation ≤ qm.daily_limit

/-- `record_request`: add the operation's cost to `used_quota` and bump
`request_count`. -/
def QuotaManager.record_request (qm : QuotaManager) (operation : String) : QuotaManager :=
  { qm with
    used_quota := qm.used_quota + QuotaManager.cost operation
    request_count := qm.request_count + 1 }

/-- `get_remaining_quota`: `daily_limit - used_quota` (non-negative in every
reachable state, so Nat truncated subtraction agrees with Python). -/
def QuotaManager.get_remaining_quota (qm : QuotaManager) : Nat :=
  qm.daily_limit - qm.used_quota

/-- A sequence of charges applied in order to a ledger. -/
def QuotaManager.chargeAll (qm : QuotaManager) (ops : List String) : QuotaManager :=
  ops.foldl QuotaManager.record_request qm

/-! ## Raw API data model -/

/-- The `id` field of a raw search-result item: either a JSON object with an
optional `videoId` key (`item['id']` a dict), or a plain string. -/
inductive ItemId where
  | dictId (videoId : Option String)
  | strId (s : String)
deriving DecidableEq, Repr

/-- The `snippet` object of a raw search-result item; a missing key is `none`
(the Python code reads each with `.get(key, '')`).  A missing snippet object
is the all-`none` value. -/
structure Snippet where
  title : Option String := none
  description : Option String := none
  publishedAt : Option String := none
  channelTitle : Option String := none
  channelId : Option String := none
deriving DecidableEq, Repr

/-- One raw item of a search response. -/
structure VideoItem where
  id : ItemId
  snippet : Snippet
deriving DecidableEq, Repr

/-- The flat record built by `VideoDataExtractor.extract_video_data`. -/
structure VideoRecord where
  videoId : String
  title : String
  description : String
  publishedAt : String
  channelTitle : String
  channelId : String
deriving DecidableEq, Repr

/-- One raw item of a `channels.list` response.  Fields the extractor reads
with `.get(key, default)` are `Option`-valued; a missing `snippet`,
`statistics` or `brandingSettings` object is the all-`none` value. -/
structure ChannelItem where
  id : Option String := none
  title : Option String := none
  description : Option String := none
  publishedAt : Option String := none
  country : Option String := none
  customUrl : Option String := none
  viewCount : Option String := none
  subscriberCount : Option String := none
  videoCount : Option String := none
  hiddenSubscriberCount : Option Bool := none
deriving DecidableEq, Repr

/-- The flat record built by `ChannelDataExtractor.extract_channel_data`. -/
structure ChannelRecord where
  channelId : String
  title : String
  description : String
  publishedAt : String
  country : String
  customUrl : String
  viewCount : String
  subscriberCount : String
  videoCount : String
  hiddenSubscriberCount : String
  channelUrl : String
deriving DecidableEq, Repr

/-- A search API response: `items` plus an optional `nextPageToken`. -/
structure SearchResponse where
  items : List VideoItem
  nextPageToken : Option String
deriving DecidableEq, Repr

/-- A detail-fetch API response: just `items`. -/
structure ItemsResponse (α : Type) where
  items : List α
deriving DecidableEq, Repr

/-- Behaviour of the remote service for one attempted HTTP call:
success with a response body, an HTTP 403 carrying the `quotaExceeded`
marker, or any other `HttpError`. -/
inductive RemoteOutcome (α : Type) where
  | success (r : α)
  | quotaHttp
  | otherHttp
deriving DecidableEq, Repr

/-! ## Remote call gateway (`YouTubeAPIClient` in src/youtube_client.py) -/

/-- What a gateway method does from its caller's point of view: return a
response, raise `QuotaExceededError`, or re-raise the `HttpError`. -/
inductive CallResult (α : Type) where
  | ok (r : α)
  | quotaExceededErr
  | httpErr
deriving DecidableEq, Repr

/-- `true` exactly on the `ok` constructor. -/
def CallResult.isOk {α : Type} : CallResult α → Bool
  | .ok _ => true
  | _ => false

/-- Result of one gateway method invocation: the caller-visible outcome, the
quota ledger afterwards, whether a remote request was issued, and whether
`_wait_for_rate_limit` ran. -/
structure GatewayStep (α : Type) where
  result : CallResult α
  qm : QuotaManager
  remoteCalled : Bool
  rateWaited : Bool
deriving DecidableEq, Repr

namespace YouTubeAPIClient

/-- `YouTubeAPIClient.search_videos`: pre-check the ledger (raising
`QuotaExceededError` before any wait or remote call if it fails), then
throttle, issue the request, and charge the ledger only on success; a 403
with the quota marker becomes `QuotaExceededError`, any other `HttpError`
is re-raised, both leaving the ledger untouched. -/
def search_videos (qm : QuotaManager) (remote : RemoteOutcome SearchResponse) :
    GatewayStep SearchResponse :=
  if qm.can_make_request "search" then
    match remote with
    | .success r => ⟨.ok r, qm.record_request "search", true, true⟩
    | .quotaHttp => ⟨.quotaExceededErr, qm, true, true⟩
    | .otherHttp => ⟨.httpErr, qm, true, true⟩
  else ⟨.quotaExceededErr, qm, false, false⟩

/-- `YouTubeAPIClient.get_video_details`: an empty id list returns
`{'items': []}` at once (no quota check, no wait, no remote call);
otherwise same pre-check / throttle / charge-on-success pattern with
operation `videos`.  The response item type is abstract because the
pipeline never inspects these items. -/
def get_video_details {α : Type} (qm : QuotaManager) (video_ids : List String)
    (remote : RemoteOutcome (ItemsResponse α)) : GatewayStep (ItemsResponse α) :=
  if video_ids.isEmpty then ⟨.ok ⟨[]⟩, qm, false, false⟩
  else if qm.can_make_request "videos" then
    match remote with
    | .success r => ⟨.ok r, qm.record_request "videos", true, true⟩
    | .quotaHttp => ⟨.quotaExceededErr, qm, true, true⟩
    | .otherHttp => ⟨.httpErr, qm, true, true⟩
  else ⟨.quotaExceededErr, qm, false, false⟩

/-- `YouTubeAPIClient.get_channel_details`: same pattern with operation
`channels`; an empty id list returns `{'items': []}` immediately. -/
def get_channel_details (qm : QuotaManager) (channel_ids : List String)
    (remote : RemoteOutcome (ItemsResponse ChannelItem)) :
    GatewayStep (ItemsResponse ChannelItem) :=
  if channel_ids.isEmpty then ⟨.ok ⟨[]⟩, qm, false, false⟩
  else if qm.can_make_request "channels" then
    match remote with
    | .success r => ⟨.ok r, qm.record_request "channels", true, true⟩
    | .quotaHttp => ⟨.quotaExceededErr, qm, true, true⟩
    | .otherHttp => ⟨.httpErr, qm, true, true⟩
  else ⟨.quotaExceededErr, qm, false, false⟩

end YouTubeAPIClient

/-! ## Pagination driver (`VideoDataExtractor` in src/video_extractor.py) -/

/-- How the driver's collection loop for one query ended.
`targetReached`: the `while len(videos) < max_videos` condition failed.
`quotaBlockedLocal`: the local `can_make_request('search')` pre-check failed.
`quotaBlockedRemote`: `QuotaExceededError` from the client, caught.
`errorCaught`: any other exception, caught by the outer handler.
`noMoreItems`: a page with an empty raw `items` list.
`noNextToken`: a page with no (or an empty) `nextPageToken`.
`pagesExhausted`: the modelled finite page stream ran out (a model artifact:
the loop wanted another page but no further remote outcome was supplied). -/
inductive DriverExit where
  | targetReached
  | quotaBlockedLocal
  | quotaBlockedRemote
  | errorCaught
  | noMoreItems
  | noNextToken
  | pagesExhausted
deriving DecidableEq, Repr

namespace VideoDataExtractor

/-- `VideoDataExtractor.extract_video_data`: normalize one raw search item.
`video_id = item.get('id', {})`; if it is a dict, take its `'videoId'` key
(default `''`); a plain-string id is used as-is.  Snippet fields default
to `''`. -/
def extract_video_data (video_item : VideoItem) : VideoRecord :=
  { videoId :=
      match video_item.id with
      | .dictId v => v.getD ""
      | .strId s => s
    title := video_item.snippet.title.getD ""
    description := video_item.snippet.description.getD ""
    publishedAt := video_item.snippet.publishedAt.getD ""
    channelTitle := video_item.snippet.channelTitle.getD ""
    channelId := video_item.snippet.channelId.getD "" }

/-- The driver's `while len(videos) < max_videos` loop body, one recursive
step per page request.  `pages` supplies the remote outcome of each
successive search request.  Returns the accumulated records at the point
the loop stopped, the reason, and the ledger afterwards. -/
def searchLoop (max_videos : Nat) (qm : QuotaManager) (pages : List (RemoteOutcome SearchResponse))
    (acc : List VideoRecord) : List VideoRecord × DriverExit × QuotaManager :=
  if acc.length < max_videos then
    if qm.can_make_request "search" then
      match pages with
      | [] => (acc, .pagesExhausted, qm)
      | p :: rest =>
        let s := YouTubeAPIClient.search_videos qm p
        match s.result with
        | .quotaExceededErr => (acc, .quotaBlockedRemote, s.qm)
        | .httpErr => (acc, .errorCaught, s.qm)
        | .ok r =>
          if r.items.isEmpty then (acc, .noMoreItems, s.qm)
          else
            let newAcc := acc ++ (r.items.map extract_video_data).filter
              (fun v => !(v.videoId == ""))
            match r.nextPageToken with
            | none => (newAcc, .noNextToken, s.qm)
            | some t =>
              if t = "" then (newAcc, .noNextToken, s.qm)
              else searchLoop max_videos s.qm rest newAcc
    else (acc, .quotaBlockedLocal, qm)
  else (acc, .targetReached, qm)

/-- `VideoDataExtractor.search_videos`: run the loop from an empty list;
every loop exit falls through to `return videos[:max_videos]` except the
outer exception handler, which returns `videos` uncapped.  The function
always returns normally — quota exhaustion and transport errors are caught
inside. -/
def search_videos (qm : QuotaManager) (pages : List (RemoteOutcome SearchResponse))
    (max_videos : Nat) : List VideoRecord × DriverExit × QuotaManager :=
  let r := searchLoop max_videos qm pages []
  match r.2.1 with
  | .errorCaught => r
  | _ => (r.1.take max_videos, r.2.1, r.2.2)

end VideoDataExtractor

/-! ## Channel aggregation (`ChannelDataExtractor` in src/channel_extractor.py) -/

namespace ChannelDataExtractor

/-- `ChannelDataExtractor.extract_channel_data`: normalize one raw channel
item.  `channel_id = channel_item.get('id', '')`; statistics counters
default to `'0'`; `hiddenSubscriberCount` is `str()` of a boolean defaulting
to `False`; `channelUrl` is a fixed template when the id is non-empty. -/
def extract_channel_data (channel_item : ChannelItem) : ChannelRecord :=
  let channel_id := channel_item.id.getD ""
  { channelId := channel_id
    title := channel_item.title.getD ""
    description := channel_item.description.getD ""
    publishedAt := channel_item.publishedAt.getD ""
    country := channel_item.country.getD ""
    customUrl := channel_item.customUrl.getD ""
    viewCount := channel_item.viewCount.getD "0"
    subscriberCount := channel_item.subscriberCount.getD "0"
    videoCount := channel_item.videoCount.getD "0"
    hiddenSubscriberCount :=
      if channel_item.hiddenSubscriberCount.getD false then "True" else "False"
    channelUrl :=
      if channel_id ≠ "" then "https://www.youtube.com/channel/" ++ channel_id
      else "" }

/-- Structural worker for `toBatches`; the fuel bounds the number of slices
(one slice consumes at least one element when `batch_size ≥ 1`, so a fuel of
the list's length always suffices). -/
def toBatchesGo (batch_size : Nat) : Nat → List String → List (List String)
  | _, [] => []
  | 0, _ :: _ => []
  | fuel + 1, a :: as =>
    ((a :: as).take batch_size) :: toBatchesGo batch_size fuel ((a :: as).drop batch_size)

/-- Slice a list into consecutive chunks of `batch_size` (the
`channel_ids[i:i + batch_size]` slices of the batch loop). -/
def toBatches (batch_size : Nat) (l : List String) : List (List String) :=
  toBatchesGo batch_size l.length l

/-- The batch loop of `ChannelDataExtractor.get_channel_details`, one
recursive step per batch.  `outcomes` supplies the remote outcome of each
successive `channels.list` call.  Per batch: local pre-check (break on
failure), gateway call, append the extracted record of every response item
on success, break on `QuotaExceededError`, continue with the next batch on
any other exception. -/
def channelLoop (qm : QuotaManager) (batches : List (List String))
    (outcomes : List (RemoteOutcome (ItemsResponse ChannelItem)))
    (acc : List ChannelRecord) : List ChannelRecord × QuotaManager :=
  match batches with
  | [] => (acc, qm)
  | b :: rest =>
    if qm.can_make_request "channels" then
      match outcomes with
      | [] => (acc, qm)
      | o :: os =>
        let s := YouTubeAPIClient.get_channel_details qm b o
        match s.result with
        | .ok r => channelLoop s.qm rest os (acc ++ r.items.map extract_channel_data)
        | .quotaExceededErr => (acc, s.qm)
        | .httpErr => channelLoop s.qm rest os acc
    else (acc, qm)

/-- `ChannelDataExtractor.get_channel_details`: empty input returns `[]`;
otherwise slice the ids into batches of 50 and run the batch loop from an
empty accumulator. -/
def get_channel_details (qm : QuotaManager) (channel_ids : List String)
    (outcomes : List (RemoteOutcome (ItemsResponse ChannelItem))) :
    List ChannelRecord × QuotaManager :=
  if channel_ids.isEmpty then ([], qm)
  else channelLoop qm (toBatches 50 channel_ids) outcomes []

end ChannelDataExtractor

/-! ## Progress tracking and checkpoint persistence (src/main.py) -/

namespace ProgressTracker

/-- `ProgressTracker.get_remaining_queries`: keep, in order, the elements of
`all_queries` that are not members of the checkpoint's completed-query
collection (`[q for q in all_queries if q not in completed]`). -/
def get_remaining_queries (completed_queries : List String)
    (all_queries : List String) : List String :=
  all_queries.filter (fun q => !(completed_queries.contains q))

end ProgressTracker

/-- A primitive file-system operation, for modelling how checkpoint
persistence touches the file.  `truncate p` is the effect of
`open(p, 'w')`; `write p d` appends `d` to the (already open) file;
`rename src dst` atomically replaces `dst` with `src` and removes `src`. -/
inductive FsOp where
  | truncate (path : String)
  | write (path : String) (data : String)
  | rename (src : String) (dst : String)
deriving DecidableEq, Repr

/-- `true` exactly on the `rename` constructor. -/
def FsOp.isRename : FsOp → Bool
  | .rename _ _ => true
  | _ => false

/-- File-system contents: a mapping from path to file content (`none` =
file absent). -/
def FsState : Type := String → Option String

/-- Effect of one primitive operation on the file system. -/
def FsState.applyOp (fs : FsState) : FsOp → FsState
  | .truncate p => fun q => if q = p then some "" else fs q
  | .write p d => fun q => if q = p then some ((fs p).getD "" ++ d) else fs q
  | .rename src dst => fun q =>
      if q = dst then fs src else if q = src then none else fs q

/-- Effect of a sequence of operations, first to last. -/
def FsState.applyOps (fs : FsState) (ops : List FsOp) : FsState :=
  ops.foldl FsState.applyOp fs

/-- The file-system operations performed by `ProgressTracker.save_progress`
(and by the inline persist in `api.run_extraction_task`):
`open(self.progress_file, 'w')` truncates the checkpoint file in place,
then `json.dump` writes the serialized checkpoint into it.  No temporary
file and no rename are involved. -/
def save_progress_ops (progress_file : String) (serialized : String) : List FsOp :=
  [FsOp.truncate progress_file, FsOp.write progress_file serialized]

/-! ## Checkpointed campaign runner (the query loop of `main` in
src/main.py, mirrored by `run_extraction_task` in src/api.py) -/

/-- One attempted query of a campaign: the query string, the records the
driver returned for it (persisted by `save_progress` immediately after the
driver returned), and the driver's exit state. -/
structure CampaignEntry where
  query : String
  videos : List VideoRecord
  exit : DriverExit
deriving DecidableEq, Repr

/-- Result of the campaign's query loop: the attempted queries in order
(each entry was persisted right after its driver run), the final ledger,
and whether the loop broke on the `remaining < 4000` pre-check. -/
structure CampaignResult where
  trace : List CampaignEntry
  qm : QuotaManager
  stoppedForQuota : Bool
deriving DecidableEq, Repr

/-- The query loop of `main`: for each remaining query in order, stop the
whole campaign if `get_remaining_quota() < 4000`; otherwise run the
pagination driver for the query (the per-query page outcomes come from
`env`), store the result into the checkpoint and persist, then continue
with the next query.  Nothing inspects how the driver's run ended. -/
def campaignLoop (maxv : Nat) (env : String → List (RemoteOutcome SearchResponse))
    (qm : QuotaManager) : List String → CampaignResult
  | [] => ⟨[], qm, false⟩
  | q :: rest =>
    if qm.get_remaining_quota < 4000 then ⟨[], qm, true⟩
    else
      let d := VideoDataExtractor.search_videos qm (env q) maxv
      let r := campaignLoop maxv env d.2.2 rest
      ⟨⟨q, d.1, d.2.1⟩ :: r.trace, r.qm, r.stoppedForQuota⟩

/-- The campaign as started by `main`: compute the remaining queries from
the checkpoint, then run the query loop over exactly those. -/
def runCampaign (maxv : Nat) (env : String → List (RemoteOutcome SearchResponse))
    (qm : QuotaManager) (completed_queries : List String)
    (all_queries : List String) : CampaignResult :=
  campaignLoop maxv env qm
    (ProgressTracker.get_remaining_queries completed_queries all_queries)

/-! ## General lemmas about the ledger -/

lemma QuotaManager.cost_search : QuotaManager.cost "search" = 100 := rfl

lemma QuotaManager.cost_videos : QuotaManager.cost "videos" = 1 := rfl

lemma QuotaManager.cost_channels : QuotaManager.cost "channels" = 1 := rfl

lemma QuotaManager.chargeAll_nil (qm : QuotaManager) : qm.chargeAll [] = qm := rfl

lemma QuotaManager.chargeAll_cons (qm : QuotaManager) (op : String) (rest : List String) :
    qm.chargeAll (op :: rest) = (qm.record_request op).chargeAll rest := rfl

lemma QuotaManager.chargeAll_used (ops : List String) :
    ∀ qm : QuotaManager,
      (qm.chargeAll ops).used_quota = qm.used_quota + (ops.map QuotaManager.cost).sum := by
  induction ops with
  | nil => intro qm; simp [QuotaManager.chargeAll_nil]
  | cons op rest ih =>
    intro qm
    rw [QuotaManager.chargeAll_cons, ih]
    simp [QuotaManager.record_request, Nat.add_assoc]

lemma QuotaManager.chargeAll_count (ops : List String) :
    ∀ qm : QuotaManager,
      (qm.chargeAll ops).request_count = qm.request_count + ops.length := by
  induction ops with
  | nil => intro qm; simp [QuotaManager.chargeAll_nil]
  | cons op rest ih =>
    intro qm
    rw [QuotaManager.chargeAll_cons, ih]
    simp [QuotaManager.record_request]
    omega

lemma QuotaManager.chargeAll_limit (ops : List String) :
    ∀ qm : QuotaManager, (qm.chargeAll ops).daily_limit = qm.daily_limit := by
  induction ops with
  | nil => intro qm; simp [QuotaManager.chargeAll_nil]
  | cons op rest ih =>
    intro qm
    rw [QuotaManager.chargeAll_cons, ih]
    simp [QuotaManager.record_request]

/-! ## Claim theorems: ledger and gateway -/

/-- Claim C1: for every Gateway call (search page, video-details fetch,
channel-details fetch), the ledger is charged exactly once when and only
when the remote call completes successfully — `used_quota` grows by the
operation's cost and `request_count` by one exactly when a remote request
was issued and returned `ok`; on `QuotaExceededError` (local pre-check or
remote 403) and on any other `HttpError`, both fields are unchanged. -/
theorem gateway_charges_iff_success {α : Type} (qm : QuotaManager)
    (rs : RemoteOutcome SearchResponse) (video_ids channel_ids : List String)
    (rv : RemoteOutcome (ItemsResponse α)) (rc : RemoteOutcome (ItemsResponse ChannelItem)) :
    (let s := YouTubeAPIClient.search_videos qm rs
     s.qm.used_quota = qm.used_quota + (if s.remoteCalled && s.result.isOk then 100 else 0) ∧
     s.qm.request_count = qm.request_count + (if s.remoteCalled && s.result.isOk then 1 else 0)) ∧
    (let s := YouTubeAPIClient.get_video_details qm video_ids rv
     s.qm.used_quota = qm.used_quota + (if s.remoteCalled && s.result.isOk then 1 else 0) ∧
     s.qm.request_count = qm.request_count + (if s.remoteCalled && s.result.isOk then 1 else 0)) ∧
    (let s := YouTubeAPIClient.get_channel_details qm channel_ids rc
     s.qm.used_quota = qm.used_quota + (if s.remoteCalled && s.result.isOk then 1 else 0) ∧
     s.qm.request_count = qm.request_count + (if s.remoteCalled && s.result.isOk then 1 else 0)) := by
  refine ⟨?_, ?_, ?_⟩
  · by_cases h : qm.can_make_request "search" <;>
      cases rs <;>
        simp [YouTubeAPIClient.search_videos, h, QuotaManager.record_request,
          CallResult.isOk, QuotaManager.cost]
  · by_cases he : video_ids.isEmpty
    · simp [YouTubeAPIClient.get_video_details, he, CallResult.isOk]
    · by_cases h : qm.can_make_request "videos" <;>
        cases rv <;>
          simp [YouTubeAPIClient.get_video_details, he, h, QuotaManager.record_request,
            CallResult.isOk, QuotaManager.cost]
  · by_cases he : channel_ids.isEmpty
    · simp [YouTubeAPIClient.get_channel_details, he, CallResult.isOk]
    · by_cases h : qm.can_make_request "channels" <;>
        cases rc <;>
          simp [YouTubeAPIClient.get_channel_details, he, h, QuotaManager.record_request,
            CallResult.isOk, QuotaManager.cost]

/-- Claim C2: on a freshly created ledger, after any sequence of successful
charges `used_quota` is the sum of the charged operations' fixed costs
(search = 100, videos = 1, channels = 1), `request_count` is the number
of charges, and `can_make_request` answers true exactly when the next
charge's cost still fits under the daily limit. -/
theorem quota_ledger_accounting (limit : Nat) (ops : List String) :
    QuotaManager.cost "search" = 100 ∧ QuotaManager.cost "videos" = 1 ∧
    QuotaManager.cost "channels" = 1 ∧
    ((QuotaManager.mk0 limit).chargeAll ops).used_quota = (ops.map QuotaManager.cost).sum ∧
    ((QuotaManager.mk0 limit).chargeAll ops).request_count = ops.length ∧
    (∀ op : String, ((QuotaManager.mk0 limit).chargeAll ops).can_make_request op = true ↔
      (ops.map QuotaManager.cost).sum + QuotaManager.cost op ≤ limit) := by
  refine ⟨rfl, rfl, rfl, ?_, ?_, ?_⟩
  · rw [QuotaManager.chargeAll_used]; simp [QuotaManager.mk0]
  · rw [QuotaManager.chargeAll_count]; simp [QuotaManager.mk0]
  · intro op
    simp [QuotaManager.can_make_request, QuotaManager.chargeAll_used,
      QuotaManager.chargeAll_limit, QuotaManager.mk0]

/-- Claim C10: calling `get_video_details` or `get_channel_details` with an
empty id list returns `{'items': []}` with no rate-limit wait, no remote
call, and the ledger (both `used_quota` and `request_count`) untouched,
whatever the remote service would have answered. -/
theorem empty_id_list_details_noop {α : Type} (qm : QuotaManager)
    (rv : RemoteOutcome (ItemsResponse α)) (rc : RemoteOutcome (ItemsResponse ChannelItem)) :
    YouTubeAPIClient.get_video_details qm [] rv =
      ⟨.ok ⟨[]⟩, qm, false, false⟩ ∧
    YouTubeAPIClient.get_channel_details qm [] rc =
      ⟨.ok ⟨[]⟩, qm, false, false⟩ :=
  ⟨rfl, rfl⟩

/-! ## Lemmas about the pagination driver -/

lemma search_videos_eq (qm : QuotaManager) (pages : List (RemoteOutcome SearchResponse))
    (maxv : Nat) :
    VideoDataExtractor.search_videos qm pages maxv =
      (if (VideoDataExtractor.searchLoop maxv qm pages []).2.1 = DriverExit.errorCaught
        then (VideoDataExtractor.searchLoop maxv qm pages []).1
        else (VideoDataExtractor.searchLoop maxv qm pages []).1.take maxv,
       (VideoDataExtractor.searchLoop maxv qm pages []).2.1,
       (VideoDataExtractor.searchLoop maxv qm pages []).2.2) := by
  cases h : VideoDataExtractor.searchLoop maxv qm pages [] with
  | mk l p =>
    cases p with
    | mk ex q => cases ex <;> simp [VideoDataExtractor.search_videos, h]

lemma searchLoop_err_lt (maxv : Nat) :
    ∀ (pages : List (RemoteOutcome SearchResponse)) (qm : QuotaManager)
      (acc : List VideoRecord),
      (VideoDataExtractor.searchLoop maxv qm pages acc).2.1 = DriverExit.errorCaught →
      (VideoDataExtractor.searchLoop maxv qm pages acc).1.length < maxv := by
  intro pages
  induction pages with
  | nil =>
    intro qm acc
    by_cases hl : acc.length < maxv
    · by_cases hc : qm.can_make_request "search" <;>
        simp [VideoDataExtractor.searchLoop, hl, hc]
    · simp [VideoDataExtractor.searchLoop, hl]
  | cons p rest ih =>
    intro qm acc
    by_cases hl : acc.length < maxv
    · by_cases hc : qm.can_make_request "search"
      · cases p with
        | success r =>
          by_cases hi : r.items.isEmpty
          · simp [VideoDataExtractor.searchLoop, hl, hc,
              YouTubeAPIClient.search_videos, hi]
          · cases ht : r.nextPageToken with
            | none =>
              simp [VideoDataExtractor.searchLoop, hl, hc,
                YouTubeAPIClient.search_videos, hi, ht]
            | some t =>
              by_cases he : t = ""
              · simp [VideoDataExtractor.searchLoop, hl, hc,
                  YouTubeAPIClient.search_videos, hi, ht, he]
              · intro h
                simp only [VideoDataExtractor.searchLoop, hl, if_pos, hc,
                  YouTubeAPIClient.search_videos, if_true, hi, ht, he,
                  Bool.false_eq_true, if_false] at h ⊢
                exact ih (qm.record_request "search") _ h
        | quotaHttp =>
          simp [VideoDataExtractor.searchLoop, hl, hc, YouTubeAPIClient.search_videos]
        | otherHttp =>
          simp [VideoDataExtractor.searchLoop, hl, hc, YouTubeAPIClient.search_videos, hl]
      · simp [VideoDataExtractor.searchLoop, hl, hc]
    · simp [VideoDataExtractor.searchLoop, hl]

lemma searchLoop_videoId_ne (maxv : Nat) :
    ∀ (pages : List (RemoteOutcome SearchResponse)) (qm : QuotaManager)
      (acc : List VideoRecord), (∀ v ∈ acc, v.videoId ≠ "") →
      ∀ v ∈ (VideoDataExtractor.searchLoop maxv qm pages acc).1, v.videoId ≠ "" := by
  intro pages
  induction pages with
  | nil =>
    intro qm acc hacc
    by_cases hl : acc.length < maxv
    · by_cases hc : qm.can_make_request "search" <;>
        simpa [VideoDataExtractor.searchLoop, hl, hc] using hacc
    · simpa [VideoDataExtractor.searchLoop, hl] using hacc
  | cons p rest ih =>
    intro qm acc hacc
    have happ : ∀ (its : List VideoItem),
        ∀ v ∈ acc ++ (its.map VideoDataExtractor.extract_video_data).filter
          (fun v => !(v.videoId == "")), v.videoId ≠ "" := by
      intro its v hv
      rcases List.mem_append.1 hv with h | h
      · exact hacc v h
      · have := (List.mem_filter.1 h).2
        simpa using this
    by_cases hl : acc.length < maxv
    · by_cases hc : qm.can_make_request "search"
      · cases p with
        | success r =>
          by_cases hi : r.items.isEmpty
          · simpa [VideoDataExtractor.searchLoop, hl, hc,
              YouTubeAPIClient.search_videos, hi] using hacc
          · cases ht : r.nextPageToken with
            | none =>
              simpa [VideoDataExtractor.searchLoop, hl, hc,
                YouTubeAPIClient.search_videos, hi, ht] using happ r.items
            | some t =>
              by_cases he : t = ""
              · simpa [VideoDataExtractor.searchLoop, hl, hc,
                  YouTubeAPIClient.search_videos, hi, ht, he] using happ r.items
              · intro v hv
                simp only [VideoDataExtractor.searchLoop, hl, if_pos, hc,
                  YouTubeAPIClient.search_videos, if_true, hi, ht, he,
                  Bool.false_eq_true, if_false] at hv
                exact ih (qm.record_request "search") _ (happ r.items) v hv
        | quotaHttp =>
          simpa [VideoDataExtractor.searchLoop, hl, hc,
            YouTubeAPIClient.search_videos] using hacc
        | otherHttp =>
          simpa [VideoDataExtractor.searchLoop, hl, hc,
            YouTubeAPIClient.search_videos] using hacc
      · simpa [VideoDataExtractor.searchLoop, hl, hc] using hacc
    · simpa [VideoDataExtractor.searchLoop, hl] using hacc

/-! ## Claim theorems: pagination driver -/

/-- Claim C4: for every query environment (any sequence of page responses,
including pages whose item count overshoots the requested page size, and
runs ended early by an error), the pagination driver returns at most
`max_videos` records. -/
theorem driver_output_at_most_target (qm : QuotaManager)
    (pages : List (RemoteOutcome SearchResponse)) (maxv : Nat) :
    (VideoDataExtractor.search_videos qm pages maxv).1.length ≤ maxv := by
  rw [search_videos_eq]
  by_cases h : (VideoDataExtractor.searchLoop maxv qm pages []).2.1 = DriverExit.errorCaught
  · simp only [h, if_pos]
    exact Nat.le_of_lt (searchLoop_err_lt maxv pages qm [] h)
  · simp only [h, if_false]
    simp [List.length_take]

/-- Claim C8: every record the pagination driver returns has a non-empty
`videoId`; raw items without a resolvable id are dropped silently. -/
theorem driver_output_videoId_nonempty (qm : QuotaManager)
    (pages : List (RemoteOutcome SearchResponse)) (maxv : Nat) :
    ∀ v ∈ (VideoDataExtractor.search_videos qm pages maxv).1, v.videoId ≠ "" := by
  rw [search_videos_eq]
  intro v hv
  simp only [] at hv
  have hbase : ∀ v ∈ ([] : List VideoRecord), v.videoId ≠ "" := by simp
  by_cases h : (VideoDataExtractor.searchLoop maxv qm pages []).2.1 = DriverExit.errorCaught
  · rw [if_pos h] at hv
    exact searchLoop_videoId_ne maxv pages qm [] hbase v hv
  · rw [if_neg h] at hv
    exact searchLoop_videoId_ne maxv pages qm [] hbase v (List.take_subset _ _ hv)

/-- Witness for C8 at a concrete input: a one-page run yields a record with
`videoId = "v"`, and the theorem gives that it is non-empty. -/
theorem driver_output_videoId_nonempty_witness :
    (⟨"v", "", "", "", "", ""⟩ : VideoRecord) ∈
      (VideoDataExtractor.search_videos (QuotaManager.mk0 10000)
        [RemoteOutcome.success ⟨[⟨ItemId.strId "v", {}⟩], none⟩] 5).1 ∧
    (⟨"v", "", "", "", "", ""⟩ : VideoRecord).videoId ≠ "" :=
  ⟨by decide,
    driver_output_videoId_nonempty (QuotaManager.mk0 10000)
      [RemoteOutcome.success ⟨[⟨ItemId.strId "v", {}⟩], none⟩] 5
      ⟨"v", "", "", "", "", ""⟩ (by decide)⟩

/-- Claim C7: when the driver's local `can_make_request('search')` pre-check
fails before a page request, or the client raises `QuotaExceededError` for a
page request, the driver stops and returns the records collected so far as
an ordinary return value (the quota failure is swallowed, the ledger is
left as it was, and nothing propagates to the caller — the embedded driver
is a total function whose quota exits are ordinary result values distinct
from the caught-error exit). -/
theorem driver_quota_stop_returns_collected (maxv : Nat) (qm : QuotaManager)
    (pages rest : List (RemoteOutcome SearchResponse)) (acc : List VideoRecord) :
    (acc.length < maxv → qm.can_make_request "search" = false →
      VideoDataExtractor.searchLoop maxv qm pages acc =
        (acc, DriverExit.quotaBlockedLocal, qm)) ∧
    (acc.length < maxv → qm.can_make_request "search" = true →
      VideoDataExtractor.searchLoop maxv qm (RemoteOutcome.quotaHttp :: rest) acc =
        (acc, DriverExit.quotaBlockedRemote, qm)) ∧
    (0 < maxv → qm.can_make_request "search" = false →
      VideoDataExtractor.search_videos qm pages maxv =
        ([], DriverExit.quotaBlockedLocal, qm)) ∧
    (0 < maxv → qm.can_make_request "search" = true →
      VideoDataExtractor.search_videos qm (RemoteOutcome.quotaHttp :: rest) maxv =
        ([], DriverExit.quotaBlockedRemote, qm)) := by
  have h1 : ∀ (ps : List (RemoteOutcome SearchResponse)), acc.length < maxv →
      qm.can_make_request "search" = false →
      VideoDataExtractor.searchLoop maxv qm ps acc =
        (acc, DriverExit.quotaBlockedLocal, qm) := by
    intro ps hl hc
    cases ps <;> simp [VideoDataExtractor.searchLoop, hl, hc]
  have h2 : acc.length < maxv → qm.can_make_request "search" = true →
      VideoDataExtractor.searchLoop maxv qm (RemoteOutcome.quotaHttp :: rest) acc =
        (acc, DriverExit.quotaBlockedRemote, qm) := by
    intro hl hc
    simp [VideoDataExtractor.searchLoop, hl, hc, YouTubeAPIClient.search_videos]
  have h1' : ∀ (ps : List (RemoteOutcome SearchResponse)), 0 < maxv →
      qm.can_make_request "search" = false →
      VideoDataExtractor.searchLoop maxv qm ps [] =
        ([], DriverExit.quotaBlockedLocal, qm) := by
    intro ps hl hc
    cases ps <;> simp [VideoDataExtractor.searchLoop, hl, hc]
  have h2' : 0 < maxv → qm.can_make_request "search" = true →
      VideoDataExtractor.searchLoop maxv qm (RemoteOutcome.quotaHttp :: rest) [] =
        ([], DriverExit.quotaBlockedRemote, qm) := by
    intro hl hc
    simp [VideoDataExtractor.searchLoop, hl, hc, YouTubeAPIClient.search_videos]
  refine ⟨h1 pages, h2, ?_, ?_⟩
  · intro hl hc
    rw [search_videos_eq, h1' pages hl hc]
    simp
  · intro hl hc
    rw [search_videos_eq, h2' hl hc]
    simp

/-- Witness for C7 at concrete inputs: a ledger with limit 0 fails the local
pre-check (clause for the local block), and a ledger with limit 10000 facing
an immediate remote quota rejection (clause for the remote block). -/
theorem driver_quota_stop_returns_collected_witness :
    ((0 < 1 ∧ (QuotaManager.mk0 0).can_make_request "search" = false) ∧
      VideoDataExtractor.search_videos (QuotaManager.mk0 0) [] 1 =
        ([], DriverExit.quotaBlockedLocal, QuotaManager.mk0 0)) ∧
    ((0 < 1 ∧ (QuotaManager.mk0 10000).can_make_request "search" = true) ∧
      VideoDataExtractor.search_videos (QuotaManager.mk0 10000)
          (RemoteOutcome.quotaHttp :: []) 1 =
        ([], DriverExit.quotaBlockedRemote, QuotaManager.mk0 10000)) :=
  ⟨⟨⟨by decide, by decide⟩,
      (driver_quota_stop_returns_collected 1 (QuotaManager.mk0 0) [] [] []).2.2.1
        (by decide) (by decide)⟩,
    ⟨⟨by decide, by decide⟩,
      (driver_quota_stop_returns_collected 1 (QuotaManager.mk0 10000) [] [] []).2.2.2
        (by decide) (by decide)⟩⟩

/-! ## Lemmas and claim theorems: channel aggregation pass (C5) -/

/-- The channel ids of the records extracted from every successful batch
response, batch order, response order inside each batch. -/
def successItemIds : List (RemoteOutcome (ItemsResponse ChannelItem)) → List String
  | [] => []
  | RemoteOutcome.success r :: os =>
      r.items.map (fun it => (ChannelDataExtractor.extract_channel_data it).channelId)
        ++ successItemIds os
  | RemoteOutcome.quotaHttp :: os => successItemIds os
  | RemoteOutcome.otherHttp :: os => successItemIds os

lemma channelLoop_ids_sublist :
    ∀ (batches : List (List String)) (outcomes : List (RemoteOutcome (ItemsResponse ChannelItem)))
      (qm : QuotaManager) (acc : List ChannelRecord),
      ((ChannelDataExtractor.channelLoop qm batches outcomes acc).1.map
          (fun r => r.channelId)).Sublist
        ((acc.map fun r => r.channelId) ++ successItemIds outcomes) := by
  intro batches
  induction batches with
  | nil =>
    intro outcomes qm acc
    exact List.sublist_append_left _ _
  | cons b rest ih =>
    intro outcomes qm acc
    by_cases hc : qm.can_make_request "channels"
    · cases outcomes with
      | nil =>
        simp only [ChannelDataExtractor.channelLoop, hc, if_true]
        exact List.sublist_append_left _ _
      | cons o os =>
        have htail : (successItemIds os).Sublist (successItemIds (o :: os)) := by
          cases o with
          | success r => exact List.sublist_append_right _ _
          | quotaHttp => exact List.Sublist.refl _
          | otherHttp => exact List.Sublist.refl _
        by_cases hb : b.isEmpty
        · simp only [ChannelDataExtractor.channelLoop, hc, if_true,
            YouTubeAPIClient.get_channel_details, hb, List.map_nil, List.append_nil]
          exact (ih os qm acc).trans (htail.append_left _)
        · cases o with
          | success r =>
            simp only [ChannelDataExtractor.channelLoop, hc, if_true,
              YouTubeAPIClient.get_channel_details, hb, Bool.false_eq_true, if_false]
            have h0 := ih os (qm.record_request "channels")
              (acc ++ r.items.map ChannelDataExtractor.extract_channel_data)
            simp only [List.map_append, List.map_map] at h0
            simp only [successItemIds, ← List.append_assoc]
            simpa [Function.comp] using h0
          | quotaHttp =>
            simp only [ChannelDataExtractor.channelLoop, hc, if_true,
              YouTubeAPIClient.get_channel_details, hb, Bool.false_eq_true, if_false]
            exact List.sublist_append_left _ _
          | otherHttp =>
            simp only [ChannelDataExtractor.channelLoop, hc, if_true,
              YouTubeAPIClient.get_channel_details, hb, Bool.false_eq_true, if_false]
            exact (ih os qm acc).trans (htail.append_left _)
    · simp only [ChannelDataExtractor.channelLoop, hc, Bool.false_eq_true, if_false]
      exact List.sublist_append_left _ _

/-- Claim C5, counterexample: the channel aggregation pass does not
deduplicate — a single batch whose response repeats a channel id yields two
`ChannelRecord`s with the same `channelId`. -/
theorem channel_pass_duplicate_records_counterexample :
    (let dup : ChannelItem := { id := some "A" }
     let out := (ChannelDataExtractor.get_channel_details (QuotaManager.mk0 10000) ["c1"]
       [RemoteOutcome.success ⟨[dup, dup]⟩]).1
     out.map (fun r => r.channelId) = ["A", "A"] ∧
     ¬ (out.map (fun r => r.channelId)).Nodup) := by
  decide

/-- Claim C5, amended: the channel aggregation pass appends one
`ChannelRecord` per response item without any deduplication, so its output
has at most one record per distinct `channelId` only under the assumption
that the batch responses themselves never repeat a channel id (across all
successful batches). -/
theorem channel_pass_nodup_under_nodup_responses (qm : QuotaManager)
    (channel_ids : List String)
    (outcomes : List (RemoteOutcome (ItemsResponse ChannelItem)))
    (h : (successItemIds outcomes).Nodup) :
    ((ChannelDataExtractor.get_channel_details qm channel_ids outcomes).1.map
      (fun r => r.channelId)).Nodup := by
  by_cases he : channel_ids.isEmpty
  · simp [ChannelDataExtractor.get_channel_details, he]
  · have hs := channelLoop_ids_sublist
      (ChannelDataExtractor.toBatches 50 channel_ids) outcomes qm []
    simp only [List.map_nil, List.nil_append] at hs
    simp only [ChannelDataExtractor.get_channel_details, he, Bool.false_eq_true, if_false]
    exact h.sublist hs

/-- Witness for C5 (amended) at a concrete input: one batch answering two
distinct channel ids satisfies the no-duplicates hypothesis, and the
theorem yields a duplicate-free output. -/
theorem channel_pass_nodup_under_nodup_responses_witness :
    (successItemIds
        [RemoteOutcome.success ⟨[{ id := some "A" }, { id := some "B" }]⟩]).Nodup ∧
    ((ChannelDataExtractor.get_channel_details (QuotaManager.mk0 10000) ["c1"]
        [RemoteOutcome.success ⟨[{ id := some "A" }, { id := some "B" }]⟩]).1.map
      (fun r => r.channelId)).Nodup :=
  ⟨by decide,
    channel_pass_nodup_under_nodup_responses (QuotaManager.mk0 10000) ["c1"]
      [RemoteOutcome.success ⟨[{ id := some "A" }, { id := some "B" }]⟩] (by decide)⟩

/-! ## Lemmas and claim theorems: campaign runner (C3, C6) -/

lemma searchLoop_quotaBlockedLocal_cannot (maxv : Nat) :
    ∀ (pages : List (RemoteOutcome SearchResponse)) (qm : QuotaManager)
      (acc : List VideoRecord),
      (VideoDataExtractor.searchLoop maxv qm pages acc).2.1 = DriverExit.quotaBlockedLocal →
      ((VideoDataExtractor.searchLoop maxv qm pages acc).2.2).can_make_request "search"
        = false := by
  intro pages
  induction pages with
  | nil =>
    intro qm acc
    by_cases hl : acc.length < maxv
    · by_cases hc : qm.can_make_request "search" <;>
        simp [VideoDataExtractor.searchLoop, hl, hc]
    · simp [VideoDataExtractor.searchLoop, hl]
  | cons p rest ih =>
    intro qm acc
    by_cases hl : acc.length < maxv
    · by_cases hc : qm.can_make_request "search"
      · cases p with
        | success r =>
          by_cases hi : r.items.isEmpty
          · simp [VideoDataExtractor.searchLoop, hl, hc,
              YouTubeAPIClient.search_videos, hi]
          · cases ht : r.nextPageToken with
            | none =>
              simp [VideoDataExtractor.searchLoop, hl, hc,
                YouTubeAPIClient.search_videos, hi, ht]
            | some t =>
              by_cases he : t = ""
              · simp [VideoDataExtractor.searchLoop, hl, hc,
                  YouTubeAPIClient.search_videos, hi, ht, he]
              · intro h
                simp only [VideoDataExtractor.searchLoop, hl, if_pos, hc,
                  YouTubeAPIClient.search_videos, if_true, hi, ht, he,
                  Bool.false_eq_true, if_false] at h ⊢
                exact ih (qm.record_request "search") _ h
        | quotaHttp =>
          simp [VideoDataExtractor.searchLoop, hl, hc, YouTubeAPIClient.search_videos]
        | otherHttp =>
          simp [VideoDataExtractor.searchLoop, hl, hc, YouTubeAPIClient.search_videos]
      · simp [VideoDataExtractor.searchLoop, hl, hc]
    · simp [VideoDataExtractor.searchLoop, hl]

lemma search_videos_quotaBlockedLocal_cannot (qm : QuotaManager)
    (pages : List (RemoteOutcome SearchResponse)) (maxv : Nat) :
    (VideoDataExtractor.search_videos qm pages maxv).2.1 = DriverExit.quotaBlockedLocal →
    ((VideoDataExtractor.search_videos qm pages maxv).2.2).can_make_request "search"
      = false := by
  rw [search_videos_eq]
  exact searchLoop_quotaBlockedLocal_cannot maxv pages qm []

lemma cannot_afford_search_low_remaining (qm : QuotaManager) :
    qm.can_make_request "search" = false → qm.get_remaining_quota < 4000 := by
  simp [QuotaManager.can_make_request, QuotaManager.get_remaining_quota, QuotaManager.cost]
  omega

lemma campaignLoop_trace_nil_of_low (maxv : Nat)
    (env : String → List (RemoteOutcome SearchResponse)) (qm : QuotaManager)
    (queries : List String) (h : qm.get_remaining_quota < 4000) :
    (campaignLoop maxv env qm queries).trace = [] := by
  cases queries <;> simp [campaignLoop, h]

/-- Claim C3, counterexample: a campaign where the driver of the first
query ends `QuotaBlocked` by a remote `QuotaExceeded` signal (the ledger is
not charged, so 10000 units still look available locally) goes on to
attempt the second query: the trace contains an entry after the
quota-blocked one, contradicting the claim that no subsequent query is
attempted. -/
theorem campaign_continues_after_remote_quota_block_counterexample :
    ((campaignLoop 1
        (fun q => if q = "q1" then [RemoteOutcome.quotaHttp]
          else [RemoteOutcome.success ⟨[], none⟩])
        (QuotaManager.mk0 10000) ["q1", "q2"]).trace.map
      (fun e => (e.query, e.exit))) =
    [("q1", DriverExit.quotaBlockedRemote), ("q2", DriverExit.noMoreItems)] := by
  decide

/-- Claim C3, amended: the campaign runner persists every attempted query's
results (each trace entry corresponds to a `save_progress` call issued
right after its driver run), and when a query's driver terminated
`QuotaBlocked` because of the *local* pre-check (`can_make_request` false),
no subsequent query is attempted — that entry is the last of the trace.
When the block came only from a remote `QuotaExceeded` signal while at
least 4000 local units remain, the runner proceeds to the next query. -/
theorem campaign_stops_after_local_quota_block (maxv : Nat)
    (env : String → List (RemoteOutcome SearchResponse)) :
    ∀ (queries : List String) (qm : QuotaManager) (pre : List CampaignEntry)
      (e : CampaignEntry) (post : List CampaignEntry),
      (campaignLoop maxv env qm queries).trace = pre ++ e :: post →
      e.exit = DriverExit.quotaBlockedLocal → post = [] := by
  intro queries
  induction queries with
  | nil =>
    intro qm pre e post h _
    simp only [campaignLoop] at h
    exact absurd h.symm (List.append_ne_nil_of_right_ne_nil _ (List.cons_ne_nil _ _))
  | cons q rest ih =>
    intro qm pre e post h hexit
    by_cases hq : qm.get_remaining_quota < 4000
    · simp only [campaignLoop, hq, if_true] at h
      exact absurd h.symm (List.append_ne_nil_of_right_ne_nil _ (List.cons_ne_nil _ _))
    · simp only [campaignLoop, hq, if_false] at h
      cases pre with
      | nil =>
        simp only [List.nil_append] at h
        have he := (List.cons.injEq _ _ _ _ ▸ h).1
        have htail := (List.cons.injEq _ _ _ _ ▸ h).2
        have hdexit : (VideoDataExtractor.search_videos qm (env q) maxv).2.1 =
            DriverExit.quotaBlockedLocal := by
          rw [← hexit, ← he]
        have hcan := search_videos_quotaBlockedLocal_cannot qm (env q) maxv hdexit
        have hlow := cannot_afford_search_low_remaining _ hcan
        rw [← htail]
        exact campaignLoop_trace_nil_of_low maxv env _ rest hlow
      | cons p pre' =>
        simp only [List.cons_append] at h
        have htail := (List.cons.injEq _ _ _ _ ▸ h).2
        exact ih _ pre' e post htail hexit

/-- Concrete one-query campaign whose driver ends `QuotaBlocked` by the
local pre-check: daily limit 4000 (exactly the runner's entry threshold),
40 successful pages of one record each consume the whole budget, and the
41st pre-check fails. -/
def envQuotaWall : String → List (RemoteOutcome SearchResponse) :=
  fun _ => List.replicate 40 (RemoteOutcome.success ⟨[⟨ItemId.strId "v", {}⟩], some "t"⟩)

/-- The campaign entry produced by `envQuotaWall` for query `q1`. -/
def entryQuotaWall : CampaignEntry :=
  ⟨"q1", List.replicate 40 ⟨"v", "", "", "", "", ""⟩, DriverExit.quotaBlockedLocal⟩

/-- Witness for C3 (amended) at a concrete input: the `envQuotaWall`
campaign's trace consists of one locally quota-blocked entry, and the
theorem yields that nothing follows it. -/
theorem campaign_stops_after_local_quota_block_witness :
    ((campaignLoop 41 envQuotaWall (QuotaManager.mk0 4000) ["q1"]).trace =
        [] ++ entryQuotaWall :: [] ∧
      entryQuotaWall.exit = DriverExit.quotaBlockedLocal) ∧
    ([] : List CampaignEntry) = [] :=
  ⟨⟨by decide, by decide⟩,
    campaign_stops_after_local_quota_block 41 envQuotaWall ["q1"] (QuotaManager.mk0 4000)
      [] entryQuotaWall [] (by decide) (by decide)⟩

lemma campaignLoop_trace_queries_prefix (maxv : Nat)
    (env : String → List (RemoteOutcome SearchResponse)) :
    ∀ (queries : List String) (qm : QuotaManager),
      ∃ t, ((campaignLoop maxv env qm queries).trace.map (fun e => e.query)) ++ t =
        queries := by
  intro queries
  induction queries with
  | nil => intro qm; exact ⟨[], rfl⟩
  | cons q rest ih =>
    intro qm
    by_cases hq : qm.get_remaining_quota < 4000
    · refine ⟨q :: rest, ?_⟩
      simp [campaignLoop, hq]
    · obtain ⟨t, ht⟩ := ih ((VideoDataExtractor.search_videos qm (env q) maxv).2.2)
      refine ⟨t, ?_⟩
      simp only [campaignLoop, hq, if_false, List.map_cons, List.cons_append]
      rw [ht]

/-- Claim C6: starting a campaign computes the remaining queries as exactly
the requested queries not present in the checkpoint's completed list — a
sublist of the request (original order preserved) whose members are
precisely the requested-but-not-completed queries — and the campaign
attempts only those (its attempted-query trace is an initial segment of
that remainder). -/
theorem remaining_queries_resume (completed all_queries : List String) :
    (ProgressTracker.get_remaining_queries completed all_queries).Sublist all_queries ∧
    (∀ q, q ∈ ProgressTracker.get_remaining_queries completed all_queries ↔
      (q ∈ all_queries ∧ ¬ q ∈ completed)) ∧
    (∀ (maxv : Nat) (env : String → List (RemoteOutcome SearchResponse))
      (qm : QuotaManager),
      ∃ t, ((runCampaign maxv env qm completed all_queries).trace.map
          (fun e => e.query)) ++ t =
        ProgressTracker.get_remaining_queries completed all_queries) := by
  refine ⟨List.filter_sublist _, ?_, ?_⟩
  · intro q
    simp [ProgressTracker.get_remaining_queries, List.mem_filter]
  · intro maxv env qm
    exact campaignLoop_trace_queries_prefix maxv env _ qm

/-! ## Claim theorems: checkpoint persistence (C9) -/

/-- Claim C9, counterexample: checkpoint persistence is not atomic.  With
the checkpoint file holding `"OLD"` and a persist of `"NEW"` in progress, a
process killed after the first file-system operation (the truncating
`open(..., 'w')`) leaves the file empty — neither the complete pre-write
state nor the complete post-write state. -/
theorem checkpoint_persistence_atomic_counterexample :
    (let fs0 : FsState := fun p => if p = "extraction_progress.json" then some "OLD" else none
     let mid := fs0.applyOps ((save_progress_ops "extraction_progress.json" "NEW").take 1)
     mid "extraction_progress.json" = some "" ∧
     ¬(mid "extraction_progress.json" = fs0 "extraction_progress.json" ∨
       mid "extraction_progress.json" = some "NEW")) := by
  decide

/-- Claim C9, amended: `save_progress` rewrites the checkpoint file in place
— it truncates the file and then writes the new serialized checkpoint into
it, performing no rename (hence no write-to-temp-then-rename step); the
completed persist leaves exactly the new contents, while a process killed
between the truncate and the write leaves an empty file. -/
theorem checkpoint_persistence_in_place (fs : FsState) (path data : String) :
    ((save_progress_ops path data).all (fun op => !(op.isRename))) = true ∧
    fs.applyOps (save_progress_ops path data) path = some data ∧
    fs.applyOps ((save_progress_ops path data).take 1) path = some "" := by
  refine ⟨rfl, ?_, ?_⟩
  · simp [FsState.applyOps, save_progress_ops, FsState.applyOp]
  · simp [FsState.applyOps, save_progress_ops, FsState.applyOp]
